import Mathlib

/-!
Verification development for the LaundryLED firmware (RP2350, custom USB HID).

The firmware receives 4-byte HID command reports, decodes them into a
`CustomHidCommand` (white, infrared, ultraviolet duty percentages plus a
reserved byte), clamps each duty to [0, 100] and drives three PWM channels.

Shallow embedding notes:
* Bytes are modelled as `Nat`; theorems that range over wire bytes carry
  explicit `< 256` bounds where the claim demands them.
* `CustomHidCommand` and `CustomHidReport` follow the struct declarations in
  `src/hidcust.rs` (packed little-endian, fields in declaration order).
* The codec (`pack` / `unpack`) follows the `packed_struct` derive semantics
  implied by those declarations: byte-sized fields in declaration order, a
  `u32` laid out little-endian, and a buffer-size check on unpack.  The
  length check itself is library behaviour not present under `src/`, so it is
  modelled from the spec (see `unpackCommand`).
* The control loop body of `main` in `src/main.rs` is embedded as a function
  from the `read_report` outcome and the current PWM state to the next PWM
  state together with a trace of hardware events (`setDuty` calls and the
  final USB poll).
-/

namespace LaundryLED

/-- Status report (device to host): a single `u32` field `data`
(`CustomHidReport` in `src/hidcust.rs`). -/
structure CustomHidReport where
  data : Nat
deriving DecidableEq, Repr

/-- Command report (host to device): four `u8` fields in declaration order
`wh`, `ir`, `uv`, `reserved` (`CustomHidCommand` in `src/hidcust.rs`). -/
structure CustomHidCommand where
  wh : Nat
  ir : Nat
  uv : Nat
  reserved : Nat
deriving DecidableEq, Repr

/-- Codec-level failure, as produced by the packing library on a buffer of
the wrong size. -/
inductive PackingError
  | bufferSizeMismatch
deriving DecidableEq, Repr

/-- Transport-level USB error: either the would-block condition (no new
data) or some other transport fault. -/
inductive UsbError
  | wouldBlock
  | transportFault
deriving DecidableEq, Repr

/-- The error taxonomy consumed by the control loop (`UsbHidError`):
would-block, serialization failure, or a wrapped transport error. -/
inductive UsbHidError
  | wouldBlock
  | serializationError
  | usbError (e : UsbError)
deriving DecidableEq, Repr

/-- Modelled from the spec: the conversion from a transport error into the
loop-level taxonomy (`UsbHidError::from` in the HID library, not under
`src/`): would-block passes through as would-block, every other transport
fault is wrapped as a transport error. -/
def usbHidErrorFrom (e : UsbError) : UsbHidError :=
  match e with
  | .wouldBlock => .wouldBlock
  | .transportFault => .usbError .transportFault

/-- Pack a command report: the four byte fields in declaration order
(little-endian packed struct of `u8` fields). -/
def packCommand (c : CustomHidCommand) : List Nat :=
  [c.wh, c.ir, c.uv, c.reserved]

/-- Pack a status report: the `u32` field `data` in little-endian byte
order. -/
def packReport (r : CustomHidReport) : List Nat :=
  [r.data % 256, r.data / 256 % 256, r.data / 65536 % 256,
   r.data / 16777216 % 256]

/-- The packing operation as exposed by the library: a `Result`.  For these
report types every field is already byte-sized, so packing always
succeeds. -/
def packReportChecked (r : CustomHidReport) : Except PackingError (List Nat) :=
  .ok (packReport r)

/-- Modelled from the spec: unpacking a command report.  A buffer of length
exactly 4 decodes to the four fields in declaration order; any other length
is rejected with a buffer-size error (the length check is `packed_struct`
library behaviour, described in the spec's length-strictness invariant). -/
def unpackCommand (bytes : List Nat) : Except PackingError CustomHidCommand :=
  match bytes with
  | [b0, b1, b2, b3] => .ok ⟨b0, b1, b2, b3⟩
  | _ => .error .bufferSizeMismatch

/-- The unpack step as used by `read_report`: a codec failure is mapped to
`SerializationError` (the `map_err` in `CustomHid::read_report`). -/
def unpackHid (bytes : List Nat) : Except UsbHidError CustomHidCommand :=
  match unpackCommand bytes with
  | .ok c => .ok c
  | .error _ => .error .serializationError

/-- `CustomHid::read_report`: the transport either fails (its error is
converted via `usbHidErrorFrom`) or delivers bytes into an exactly-4-byte
buffer, which is then unpacked; an unpack failure becomes
`SerializationError`. -/
def read_report (tr : Except UsbError (Nat × Nat × Nat × Nat)) :
    Except UsbHidError CustomHidCommand :=
  match tr with
  | .error e => .error (usbHidErrorFrom e)
  | .ok (b0, b1, b2, b3) => unpackHid [b0, b1, b2, b3]

/-- `CustomHid::write_report` generalised over the result of the packing
step: on a packing failure return `SerializationError` without calling the
transport; on success forward the packed bytes to the transport and wrap
any transport error.  The second component records the buffers handed to
the transport write. -/
def writeReportGen (packed : Except PackingError (List Nat))
    (transport : List Nat → Except UsbError Unit) :
    Except UsbHidError Unit × List (List Nat) :=
  match packed with
  | .error _ => (.error .serializationError, [])
  | .ok data =>
      match transport data with
      | .ok _ => (.ok (), [data])
      | .error e => (.error (usbHidErrorFrom e), [data])

/-- `CustomHid::write_report` on a concrete status report: pack, then hand
the bytes to the transport. -/
def write_report (r : CustomHidReport)
    (transport : List Nat → Except UsbError Unit) :
    Except UsbHidError Unit × List (List Nat) :=
  writeReportGen (packReportChecked r) transport

/-- The duty values currently applied to the three PWM channels
(infrared = PWM1B, white = PWM2A, ultraviolet = PWM2B in `main.rs`). -/
structure PwmState where
  ir : Nat
  wh : Nat
  uv : Nat
deriving DecidableEq, Repr

/-- The three LED PWM channels. -/
inductive Channel
  | ir
  | wh
  | uv
deriving DecidableEq, Repr

/-- Observable hardware events of one control-loop iteration: a
`set_duty_cycle_percent` call on a channel, or the generic USB device
poll. -/
inductive Event
  | setDuty (ch : Channel) (duty : Nat)
  | usbPoll
deriving DecidableEq, Repr

/-- Whether an event is the generic USB device poll. -/
def isPoll (e : Event) : Bool :=
  match e with
  | .usbPoll => true
  | _ => false

/-- Whether a read outcome is the serialization-error case. -/
def isSerErr (r : Except UsbHidError CustomHidCommand) : Bool :=
  match r with
  | .error .serializationError => true
  | _ => false

/-- The control loop's clamp of a duty byte: `min(duty, 100)` in
`main.rs`. -/
def clamp (d : Nat) : Nat := min d 100

/-- The `match` on the `read_report` outcome in `main`'s loop: on success
clamp each duty and update the three channels in the order infrared,
white, ultraviolet; on would-block, serialization error or any other
error, change nothing (logging is not modelled). -/
def handleRead (res : Except UsbHidError CustomHidCommand) (s : PwmState) :
    PwmState × List Event :=
  match res with
  | .ok cmd =>
      ({ ir := clamp cmd.ir, wh := clamp cmd.wh, uv := clamp cmd.uv },
       [.setDuty .ir (clamp cmd.ir), .setDuty .wh (clamp cmd.wh),
        .setDuty .uv (clamp cmd.uv)])
  | .error .wouldBlock => (s, [])
  | .error .serializationError => (s, [])
  | .error (.usbError _) => (s, [])

/-- One full iteration of the control loop: handle the read outcome, then
(regardless of outcome) invoke the generic USB device poll. -/
def loopIter (res : Except UsbHidError CustomHidCommand) (s : PwmState) :
    PwmState × List Event :=
  let r := handleRead res s
  (r.1, r.2 ++ [.usbPoll])

/-- Running the control loop over a finite stream of read outcomes,
threading the PWM state. -/
def runLoop (results : List (Except UsbHidError CustomHidCommand))
    (s : PwmState) : PwmState :=
  results.foldl (fun st res => (loopIter res st).1) s

end LaundryLED

namespace LaundryLED

/-- C1: byte 0 of a 4-byte report decodes to `wh` (white duty), byte 1 to
`ir` (infrared), byte 2 to `uv` (ultraviolet); applying a decoded command
sets the three channels to the clamped duties; in particular
`[50, 75, 25, 0]` decodes to white 50, infrared 75, ultraviolet 25 and
sets the channels to 50%, 75%, 25%. -/
theorem C1_field_decoding_and_apply :
    (∀ b0 b1 b2 b3 : Nat,
        unpackCommand [b0, b1, b2, b3] =
          .ok { wh := b0, ir := b1, uv := b2, reserved := b3 }) ∧
    (∀ (cmd : CustomHidCommand) (s : PwmState),
        (loopIter (.ok cmd) s).1 =
          { ir := clamp cmd.ir, wh := clamp cmd.wh, uv := clamp cmd.uv }) ∧
    unpackCommand [50, 75, 25, 0] =
      .ok { wh := 50, ir := 75, uv := 25, reserved := 0 } ∧
    (∀ s : PwmState,
        loopIter (.ok { wh := 50, ir := 75, uv := 25, reserved := 0 }) s =
          ({ ir := 75, wh := 50, uv := 25 },
           [.setDuty .ir 75, .setDuty .wh 50, .setDuty .uv 25, .usbPoll])) :=
  ⟨fun _ _ _ _ => rfl, fun _ _ => rfl, rfl, fun _ => rfl⟩

/-- C2: the clamp is the identity on [0, 100] and returns exactly 100 above
100; the command bytes `[255, 0, 200, 0]` therefore drive white to 100%,
infrared to 0% and ultraviolet to 100%. -/
theorem C2_clamp_saturation :
    (∀ d : Nat, d ≤ 100 → clamp d = d) ∧
    (∀ d : Nat, 100 < d → clamp d = 100) ∧
    unpackCommand [255, 0, 200, 0] =
      .ok { wh := 255, ir := 0, uv := 200, reserved := 0 } ∧
    (∀ s : PwmState,
        (loopIter (.ok { wh := 255, ir := 0, uv := 200, reserved := 0 }) s).1 =
          { ir := 0, wh := 100, uv := 100 }) := by
  refine ⟨fun d h => ?_, fun d h => ?_, rfl, fun s => rfl⟩
  · unfold clamp; omega
  · unfold clamp; omega

/-- C2 witness: the clamp theorem applied at the concrete duties 100 and
255. -/
theorem C2_clamp_saturation_witness : clamp 100 = 100 ∧ clamp 255 = 100 :=
  ⟨C2_clamp_saturation.1 100 (by decide), C2_clamp_saturation.2.1 255 (by decide)⟩

/-- C3: for every command report whose four byte fields each lie in the
full 0–255 range, unpacking the packed 4-byte buffer yields the report
back: `unpack (pack r) = r`. -/
theorem C3_roundtrip (c : CustomHidCommand)
    (hwh : c.wh < 256) (hir : c.ir < 256) (huv : c.uv < 256)
    (hres : c.reserved < 256) :
    unpackCommand (packCommand c) = .ok c :=
  rfl

/-- C3 witness: the round trip at the concrete report (50, 75, 25, 0). -/
theorem C3_roundtrip_witness :
    unpackCommand (packCommand { wh := 50, ir := 75, uv := 25, reserved := 0 }) =
      .ok { wh := 50, ir := 75, uv := 25, reserved := 0 } :=
  C3_roundtrip { wh := 50, ir := 75, uv := 25, reserved := 0 }
    (by decide) (by decide) (by decide) (by decide)

/-- C4: unpacking any buffer whose length is not exactly 4 fails with the
codec's buffer-size error, which the read path surfaces as
`SerializationError`; the encoded length of both report types is always
exactly 4 bytes. -/
theorem C4_length_strictness :
    (∀ bytes : List Nat, bytes.length ≠ 4 →
        unpackCommand bytes = .error .bufferSizeMismatch ∧
        unpackHid bytes = .error .serializationError) ∧
    (∀ c : CustomHidCommand, (packCommand c).length = 4) ∧
    (∀ r : CustomHidReport, (packReport r).length = 4) := by
  refine ⟨fun bytes h => ?_, fun c => rfl, fun r => rfl⟩
  match bytes with
  | [] => exact ⟨rfl, rfl⟩
  | [_] => exact ⟨rfl, rfl⟩
  | [_, _] => exact ⟨rfl, rfl⟩
  | [_, _, _] => exact ⟨rfl, rfl⟩
  | [_, _, _, _] => simp at h
  | _ :: _ :: _ :: _ :: _ :: _ => exact ⟨rfl, rfl⟩

/-- C4 witness: the length-strictness theorem applied to a concrete 3-byte
buffer. -/
theorem C4_length_strictness_witness :
    unpackCommand [1, 2, 3] = .error .bufferSizeMismatch ∧
    unpackHid [1, 2, 3] = .error .serializationError :=
  C4_length_strictness.1 [1, 2, 3] (by decide)

/-- C5: an iteration whose read outcome is a serialization error or any
other (transport) error leaves every PWM duty unchanged, and the loop
continues: prefixing such an error to a stream of outcomes does not change
the final state of the remaining run. -/
theorem C5_error_isolation (e : UsbHidError) (s : PwmState)
    (rest : List (Except UsbHidError CustomHidCommand))
    (h : e = .serializationError ∨ ∃ u, e = .usbError u) :
    (loopIter (.error e) s).1 = s ∧
    runLoop (.error e :: rest) s = runLoop rest s := by
  have hstate : (loopIter (.error e) s).1 = s := by
    rcases h with h | ⟨u, h⟩ <;> subst h <;> rfl
  refine ⟨hstate, ?_⟩
  show runLoop rest (loopIter (.error e) s).1 = runLoop rest s
  rw [hstate]

/-- C5 witness: the error-isolation theorem at a concrete serialization
error, state and continuation. -/
theorem C5_error_isolation_witness :
    (loopIter (.error .serializationError) { ir := 10, wh := 20, uv := 30 }).1 =
      { ir := 10, wh := 20, uv := 30 } ∧
    runLoop [.error .serializationError] { ir := 10, wh := 20, uv := 30 } =
      runLoop [] { ir := 10, wh := 20, uv := 30 } :=
  C5_error_isolation .serializationError { ir := 10, wh := 20, uv := 30 } []
    (Or.inl rfl)

/-- C6: a would-block iteration performs no PWM update — it emits only the
USB poll and the PWM state after the iteration equals the state before. -/
theorem C6_wouldblock_transparency (s : PwmState) :
    loopIter (.error .wouldBlock) s = (s, [.usbPoll]) :=
  rfl

/-- C7: every control-loop iteration invokes the generic USB device poll
exactly once, whatever the read outcome. -/
theorem C7_poll_every_iteration
    (res : Except UsbHidError CustomHidCommand) (s : PwmState) :
    ((loopIter res s).2.countP isPoll) = 1 := by
  match res with
  | .ok cmd => rfl
  | .error .wouldBlock => rfl
  | .error .serializationError => rfl
  | .error (.usbError u) => rfl

/-- C8: on a successfully decoded command the channel updates are issued in
the order infrared, then white, then ultraviolet (followed by the USB
poll). -/
theorem C8_update_order (cmd : CustomHidCommand) (s : PwmState) :
    (loopIter (.ok cmd) s).2 =
      [.setDuty .ir (clamp cmd.ir), .setDuty .wh (clamp cmd.wh),
       .setDuty .uv (clamp cmd.uv), .usbPoll] :=
  rfl

/-- C9: `write_report` packs first; a packing failure yields
`SerializationError` with no transport call at all; and packing a status
report never fails, since its field is laid out as four bytes. -/
theorem C9_write_fail_fast :
    (∀ (err : PackingError) (transport : List Nat → Except UsbError Unit),
        writeReportGen (.error err) transport =
          (.error .serializationError, [])) ∧
    (∀ r : CustomHidReport, packReportChecked r = .ok (packReport r)) ∧
    (∀ (r : CustomHidReport) (transport : List Nat → Except UsbError Unit),
        write_report r transport =
          writeReportGen (.ok (packReport r)) transport) :=
  ⟨fun _ _ => rfl, fun _ => rfl, fun _ _ => rfl⟩

/-- C10: `read_report` can never return `SerializationError`: unpacking
succeeds on every 4-byte buffer (all fields are unconstrained bytes), and
transport errors map to would-block or a wrapped transport error, so the
serialization-error arm of the control loop is unreachable. -/
theorem C10_serialization_unreachable :
    (∀ b0 b1 b2 b3 : Nat,
        unpackHid [b0, b1, b2, b3] =
          .ok { wh := b0, ir := b1, uv := b2, reserved := b3 }) ∧
    (∀ tr : Except UsbError (Nat × Nat × Nat × Nat),
        isSerErr (read_report tr) = false) := by
  refine ⟨fun _ _ _ _ => rfl, fun tr => ?_⟩
  match tr with
  | .ok (b0, b1, b2, b3) => rfl
  | .error .wouldBlock => rfl
  | .error .transportFault => rfl

end LaundryLED
